import Mathlib

/-!
# block_ip.cpp: sequencing of the IP blocker

A shallow embedding of `src/block_ip.cpp`.  The program's only effects are
`system(cmd)` calls and one read of `/etc/os-release`; both are made explicit:

* the host is a `Host σ`: the lines that `getline` delivers from
  `/etc/os-release` (`none` when the stream does not open), and the effect of
  `system(cmd)` on a host state `σ`, giving the exit status and the next state;
* every function threads a `Run σ`: the current host state and the
  chronological trace of effects performed so far.

`std::string` is `String`; `bool` is `Bool`; the `int` returned by `system`
and by `main` is `Int`.  Text written to `std::cout` / `std::cerr` is not part
of the embedding, and neither is `exec_command`, which the source defines but
never calls.
-/

namespace BlockIp

/-! ## Effects -/

/-- One observable effect of the program. -/
inductive Event where
  | open_file (path : String)
  | system (cmd : String)
  deriving DecidableEq

/-- The host the program runs on. -/
structure Host (σ : Type) where
  /-- lines of `/etc/os-release` as `getline` yields them; `none`: `is_open()` is false -/
  os_release : Option (List String)
  /-- `system(cmd)` in a host state: exit status and next host state -/
  system : String → σ → Int × σ

/-- Host state together with the trace of effects so far. -/
structure Run (σ : Type) where
  env : σ
  trace : List Event

/-- The call `system(cmd.c_str())`: run the command on the host and record it. -/
def run_system {σ : Type} (h : Host σ) (cmd : String) (r : Run σ) : Int × Run σ :=
  let res := h.system cmd r.env
  (res.1, ⟨res.2, r.trace ++ [Event.system cmd]⟩)

/-! ## `std::string::find` -/

/-- Search for `pat` in `s` from offset `i` on; `none` is `std::string::npos`. -/
def find_from (pat : List Char) : List Char → Nat → Option Nat
  | [], i => if pat.isPrefixOf [] then some i else none
  | c :: cs, i => if pat.isPrefixOf (c :: cs) then some i else find_from pat cs (i + 1)

/-- The call `s.find(pat)`: position of the first occurrence, `none` for `npos`. -/
def find (s pat : String) : Option Nat :=
  find_from pat.data s.data 0

/-! ## Package queries -/

def dpkg_query_cmd (package_name : String) : String :=
  "dpkg -s " ++ package_name ++ " &>/dev/null"

def pacman_query_cmd (package_name : String) : String :=
  "pacman -Qs " ++ package_name ++ " &>/dev/null"

def is_debian_package_installed {σ : Type} (h : Host σ) (package_name : String)
    (r : Run σ) : Bool × Run σ :=
  let cmd := dpkg_query_cmd package_name
  let res := run_system h cmd r
  (decide (res.1 = 0), res.2)

def is_arch_package_installed {σ : Type} (h : Host σ) (package_name : String)
    (r : Run σ) : Bool × Run σ :=
  let cmd := pacman_query_cmd package_name
  let res := run_system h cmd r
  (decide (res.1 = 0), res.2)

/-! ## Distribution detection -/

/-- The `while (getline(os_release_file, line))` loop of `detect_distro`;
`distro` is the value of the local variable on entry. -/
def detect_loop : List String → String → String
  | [], distro => distro
  | line :: rest, distro =>
    if find line "ID=debian" ≠ none ∨ find line "ID=ubuntu" ≠ none then
      "debian"
    else if find line "ID=arch" ≠ none then
      "arch"
    else
      detect_loop rest distro

def detect_distro {σ : Type} (h : Host σ) (r : Run σ) : String × Run σ :=
  let r1 : Run σ := ⟨r.env, r.trace ++ [Event.open_file "/etc/os-release"]⟩
  let distro := "unknown"
  match h.os_release with
  | some lines => (detect_loop lines distro, r1)
  | none => (distro, r1)

/-! ## Dependency installer -/

def apt_install_cmd : String :=
  "sudo apt update && sudo apt install -y iptables-persistent"

def pacman_install_cmd : String :=
  "sudo pacman -Sy iptables --noconfirm"

def check_and_install_iptables {σ : Type} (h : Host σ) (distro : String)
    (r : Run σ) : Bool × Run σ :=
  if distro = "debian" then
    let q := is_debian_package_installed h "iptables-persistent" r
    if !q.1 then
      let i := run_system h apt_install_cmd q.2
      if i.1 ≠ 0 then (false, i.2) else (true, i.2)
    else
      (true, q.2)
  else if distro = "arch" then
    let q := is_arch_package_installed h "iptables" r
    if !q.1 then
      let i := run_system h pacman_install_cmd q.2
      if i.1 ≠ 0 then (false, i.2) else (true, i.2)
    else
      (true, q.2)
  else
    (true, r)

/-! ## Rule manager -/

def check_cmd (ip_to_block : String) : String :=
  "sudo iptables-save | grep -q -- \"-A INPUT -s " ++ ip_to_block ++ " -j DROP\""

def add_rule_cmd (ip_to_block : String) : String :=
  "sudo iptables -A INPUT -s " ++ ip_to_block ++ " -j DROP"

def block_ip {σ : Type} (h : Host σ) (ip_to_block : String) (r : Run σ) : Bool × Run σ :=
  if ip_to_block.length = 0 then
    (false, r)
  else
    let c := run_system h (check_cmd ip_to_block) r
    if c.1 = 0 then
      (true, c.2)
    else
      let a := run_system h (add_rule_cmd ip_to_block) c.2
      if a.1 ≠ 0 then (false, a.2) else (true, a.2)

/-! ## Persistence manager -/

def netfilter_save_cmd : String :=
  "sudo netfilter-persistent save"

def iptables_export_cmd : String :=
  "sudo iptables-save > /etc/iptables/iptables.rules"

def iptables_service_cmd : String :=
  "sudo systemctl enable iptables.service && sudo systemctl start iptables.service"

def save_iptables_rules {σ : Type} (h : Host σ) (distro : String)
    (r : Run σ) : Bool × Run σ :=
  if distro = "debian" then
    let s := run_system h netfilter_save_cmd r
    if s.1 ≠ 0 then (false, s.2) else (true, s.2)
  else if distro = "arch" then
    let s := run_system h iptables_export_cmd r
    if s.1 ≠ 0 then (false, s.2)
    else
      let e := run_system h iptables_service_cmd s.2
      if e.1 ≠ 0 then (false, e.2) else (true, e.2)
  else
    (true, r)

/-! ## Orchestrator -/

/-- The program entry: `argv` is the whole argument vector (program name first),
`argc` its length; the run starts in host state `s` with an empty trace. -/
def main {σ : Type} (h : Host σ) (argv : List String) (s : σ) : Int × Run σ :=
  let r0 : Run σ := ⟨s, []⟩
  if argv.length < 2 then
    (1, r0)
  else
    let ip_to_block := argv.getD 1 ""
    let d := detect_distro h r0
    if d.1 = "unknown" then
      (1, d.2)
    else
      let ci := check_and_install_iptables h d.1 d.2
      if !ci.1 then (1, ci.2)
      else
        let bi := block_ip h ip_to_block ci.2
        if !bi.1 then (1, bi.2)
        else
          let sv := save_iptables_rules h d.1 bi.2
          if !sv.1 then (1, sv.2)
          else (0, sv.2)

/-! ## Hosts used in the statements -/

/-- External commands as an oracle from command string to exit status; the
host has no state of its own. -/
def oracle_host (os_release : Option (List String)) (o : String → Int) : Host Unit :=
  ⟨os_release, fun cmd _ => (o cmd, ())⟩

/-- The rule text that the check command of `block_ip` greps for. -/
def rule_text (ip : String) : String :=
  "-A INPUT -s " ++ ip ++ " -j DROP"

/-- The firewall rule set as a list of rule lines: for the address `ip` the
rule-addition command appends `rule_text ip` and exits 0, the check command
exits 0 exactly when that text is in the list; any other command is not found
(status 127) and changes nothing. -/
def iptables_model (ip : String) : Host (List String) :=
  ⟨none, fun cmd rules =>
    if cmd = add_rule_cmd ip then (0, rules ++ [rule_text ip])
    else if cmd = check_cmd ip then (if rule_text ip ∈ rules then 0 else 1, rules)
    else (127, rules)⟩

/-- State of a package database: whether the package is installed and whether
the package mirror can be reached. -/
structure PkgDb where
  installed : Bool
  online : Bool
  deriving DecidableEq

/-- A package database: the install command `install` succeeds exactly when the
mirror is reachable and then marks the package installed; the query command
`query` exits 0 exactly when the package is installed. -/
def pkgdb_model (query install : String) : Host PkgDb :=
  ⟨none, fun cmd db =>
    if cmd = install then (if db.online then (0, ⟨true, db.online⟩) else (100, db))
    else if cmd = query then (if db.installed then 0 else 1, db)
    else (127, db)⟩

/-! ## Specification-level vocabulary -/

/-- Follows the spec's words: `pat` occurs as a substring anywhere in `line`
(case-sensitive). -/
def Contains (line pat : String) : Prop :=
  pat.data <:+: line.data

instance (line pat : String) : Decidable (Contains line pat) := by
  unfold Contains; infer_instance

/-- Follows the spec's words: a line matches when it contains one of the three
identifier patterns. -/
def is_match (line : String) : Prop :=
  Contains line "ID=debian" ∨ Contains line "ID=ubuntu" ∨ Contains line "ID=arch"

instance (line : String) : Decidable (is_match line) := by
  unfold is_match; infer_instance

/-- Follows the spec's words: first match wins.  The first matching line decides:
Debian family if it contains `ID=debian` or `ID=ubuntu`, Arch family otherwise;
Unknown when no line matches or the file cannot be opened. -/
def first_match_spec : Option (List String) → String
  | none => "unknown"
  | some lines =>
    match lines.find? (fun l => decide (is_match l)) with
    | none => "unknown"
    | some l =>
      if Contains l "ID=debian" ∨ Contains l "ID=ubuntu" then "debian" else "arch"

/-- The query command that `check_and_install_iptables` issues for a family. -/
def query_cmd (distro : String) : String :=
  if distro = "debian" then dpkg_query_cmd "iptables-persistent"
  else pacman_query_cmd "iptables"

/-- The install command that `check_and_install_iptables` issues for a family. -/
def install_cmd (distro : String) : String :=
  if distro = "debian" then apt_install_cmd else pacman_install_cmd

/-! ## Lemmas on `find` -/

theorem find_from_eq_none_iff (pat s : List Char) (i : Nat) :
    find_from pat s i = none ↔ ¬ pat <:+: s := by
  induction s generalizing i with
  | nil =>
    cases pat with
    | nil => simp [find_from]
    | cons p ps => simp [find_from, List.isPrefixOf]
  | cons c cs ih =>
    unfold find_from
    by_cases hp : pat.isPrefixOf (c :: cs) = true
    · have hpre : pat <+: c :: cs := List.isPrefixOf_iff_prefix.mp hp
      simp [hp, hpre.isInfix]
    · have hpre : ¬ pat <+: c :: cs := fun hx => hp (List.isPrefixOf_iff_prefix.mpr hx)
      rw [if_neg hp, ih, List.infix_cons_iff]
      tauto

theorem find_ne_none_iff (s pat : String) : find s pat ≠ none ↔ Contains s pat := by
  unfold find Contains
  rw [Ne, find_from_eq_none_iff, not_not]

/-! ## Lemmas on `detect_loop` -/

theorem detect_loop_first_match (lines : List String) :
    detect_loop lines "unknown" = first_match_spec (some lines) := by
  induction lines with
  | nil => simp [detect_loop, first_match_spec]
  | cons l rest ih =>
    simp only [detect_loop, find_ne_none_iff]
    by_cases h1 : Contains l "ID=debian" ∨ Contains l "ID=ubuntu"
    · have hm : is_match l := by unfold is_match; tauto
      simp [first_match_spec, List.find?, h1, hm]
    · by_cases h2 : Contains l "ID=arch"
      · have hm : is_match l := by unfold is_match; tauto
        simp [first_match_spec, List.find?, h1, h2, hm]
      · have hm : ¬ is_match l := by unfold is_match; tauto
        rw [if_neg h1, if_neg h2, ih]
        simp [first_match_spec, List.find?, hm]

theorem first_match_spec_unknown_iff (lines : List String) :
    first_match_spec (some lines) = "unknown" ↔ ∀ l ∈ lines, ¬ is_match l := by
  unfold first_match_spec
  dsimp only
  cases hf : lines.find? (fun l => decide (is_match l)) with
  | none =>
    simp only [true_iff]
    intro l hl
    have := List.find?_eq_none.mp hf l hl
    simpa using this
  | some l =>
    have hl := List.find?_some hf
    have hmem := List.mem_of_find?_eq_some hf
    have hne : (if Contains l "ID=debian" ∨ Contains l "ID=ubuntu" then "debian" else "arch")
        ≠ "unknown" := by
      split_ifs <;> decide
    simp only [hne, false_iff]
    intro hall
    exact hall l hmem (by simpa using hl)

/-! ## Distribution detector: claims -/

/-- C10: `detect_distro` is first-match-wins over lines: its result is the one
decided by the first line containing `ID=debian`, `ID=ubuntu` or `ID=arch`
("debian" if that line contains `ID=debian` or `ID=ubuntu`, otherwise "arch"),
and it is "unknown" exactly when the file cannot be opened or no line contains
any of the three substrings. -/
theorem detect_distro_first_match_wins {σ : Type} (h : Host σ) (r : Run σ) :
    (detect_distro h r).1 = first_match_spec h.os_release ∧
    ((detect_distro h r).1 = "unknown" ↔
      h.os_release = none ∨
      ∃ lines, h.os_release = some lines ∧
        ∀ l ∈ lines, ¬ (Contains l "ID=debian" ∨ Contains l "ID=ubuntu" ∨ Contains l "ID=arch")) := by
  unfold detect_distro
  cases hf : h.os_release with
  | none => simp [first_match_spec]
  | some lines =>
    simp only [detect_loop_first_match, true_and, reduceCtorEq, false_or, Option.some.injEq,
      exists_eq_left']
    exact first_match_spec_unknown_iff lines

theorem detect_loop_debian (pre post : List String) (l distro : String)
    (hl : Contains l "ID=ubuntu" ∨ Contains l "ID=debian")
    (hpre : ∀ x ∈ pre, ¬ Contains x "ID=arch") :
    detect_loop (pre ++ l :: post) distro = "debian" := by
  induction pre with
  | nil =>
    have hl2 : Contains l "ID=debian" ∨ Contains l "ID=ubuntu" := hl.symm
    simp [detect_loop, find_ne_none_iff, hl2]
  | cons x xs ih =>
    have hx : ¬ Contains x "ID=arch" := hpre x (List.mem_cons_self x xs)
    have hxs : ∀ y ∈ xs, ¬ Contains y "ID=arch" := fun y hy => hpre y (List.mem_cons_of_mem x hy)
    rw [List.cons_append]
    simp only [detect_loop, find_ne_none_iff]
    split_ifs with h1
    · rfl
    · exact ih hxs

theorem detect_loop_arch (pre post : List String) (l distro : String)
    (hl : Contains l "ID=arch")
    (hpre : ∀ x ∈ pre ++ [l], ¬ (Contains x "ID=ubuntu" ∨ Contains x "ID=debian")) :
    detect_loop (pre ++ l :: post) distro = "arch" := by
  induction pre with
  | nil =>
    have hl2 : ¬ (Contains l "ID=debian" ∨ Contains l "ID=ubuntu") := fun hc =>
      hpre l (by simp) hc.symm
    simp [detect_loop, find_ne_none_iff, hl2, hl]
  | cons x xs ih =>
    have hx : ¬ (Contains x "ID=debian" ∨ Contains x "ID=ubuntu") := fun hc =>
      hpre x (by simp) hc.symm
    have hxs : ∀ y ∈ xs ++ [l], ¬ (Contains y "ID=ubuntu" ∨ Contains y "ID=debian") :=
      fun y hy => hpre y (by
        rw [List.cons_append]
        exact List.mem_cons_of_mem x hy)
    rw [List.cons_append]
    simp only [detect_loop, find_ne_none_iff]
    split_ifs with h2
    · rfl
    · exact ih hxs

/-- C1 as stated fails: the content `ID=arch`, `ID=debian` contains `ID=debian`,
yet `detect_distro` returns "arch", not "debian". -/
theorem detect_distro_later_debian_line_ignored :
    (∃ l ∈ ["ID=arch", "ID=debian"], Contains l "ID=debian") ∧
    (detect_distro (oracle_host (some ["ID=arch", "ID=debian"]) (fun _ => 0)) ⟨(), []⟩).1
      = "arch" ∧
    (detect_distro (oracle_host (some ["ID=arch", "ID=debian"]) (fun _ => 0)) ⟨(), []⟩).1
      ≠ "debian" := by
  refine ⟨⟨"ID=debian", by simp, (find_ne_none_iff _ _).mp (by decide)⟩, by decide, by decide⟩

/-- C1 (amended): if a line of the content contains `ID=ubuntu` or `ID=debian` and
no earlier line contains `ID=arch`, `detect_distro` returns "debian"; if a line
contains `ID=arch` and neither it nor an earlier line contains `ID=ubuntu` or
`ID=debian`, `detect_distro` returns "arch". -/
theorem detect_distro_family {σ : Type} (h : Host σ) (r : Run σ)
    (pre post : List String) (l : String)
    (hfile : h.os_release = some (pre ++ l :: post)) :
    ((Contains l "ID=ubuntu" ∨ Contains l "ID=debian") →
      (∀ x ∈ pre, ¬ Contains x "ID=arch") →
      (detect_distro h r).1 = "debian") ∧
    (Contains l "ID=arch" →
      (∀ x ∈ pre ++ [l], ¬ (Contains x "ID=ubuntu" ∨ Contains x "ID=debian")) →
      (detect_distro h r).1 = "arch") := by
  unfold detect_distro
  rw [hfile]
  exact ⟨fun hl hpre => detect_loop_debian pre post l _ hl hpre,
    fun hl hpre => detect_loop_arch pre post l _ hl hpre⟩

/-- Witness for `detect_distro_family`: an Ubuntu-style and an Arch-style file. -/
theorem detect_distro_family_witness :
    ((Contains "ID=ubuntu" "ID=ubuntu" ∨ Contains "ID=ubuntu" "ID=debian") ∧
      (∀ x ∈ ["NAME=Ubuntu"], ¬ Contains x "ID=arch") ∧
      (detect_distro
        (oracle_host (some (["NAME=Ubuntu"] ++ "ID=ubuntu" :: ["ID_LIKE=debian"])) (fun _ => 0))
        ⟨(), []⟩).1 = "debian") ∧
    (Contains "ID=arch" "ID=arch" ∧
      (∀ x ∈ ["NAME=Arch Linux"] ++ ["ID=arch"],
        ¬ (Contains x "ID=ubuntu" ∨ Contains x "ID=debian")) ∧
      (detect_distro
        (oracle_host (some (["NAME=Arch Linux"] ++ "ID=arch" :: ["BUILD_ID=rolling"]))
          (fun _ => 0))
        ⟨(), []⟩).1 = "arch") := by
  have c1 : Contains "ID=ubuntu" "ID=ubuntu" ∨ Contains "ID=ubuntu" "ID=debian" :=
    Or.inl ((find_ne_none_iff _ _).mp (by decide))
  have p1 : ∀ x ∈ ["NAME=Ubuntu"], ¬ Contains x "ID=arch" := by
    intro x hx
    rw [List.mem_singleton] at hx
    subst hx
    exact fun hc => absurd ((find_ne_none_iff _ _).mpr hc) (by decide)
  have c2 : Contains "ID=arch" "ID=arch" := (find_ne_none_iff _ _).mp (by decide)
  have p2 : ∀ x ∈ ["NAME=Arch Linux"] ++ ["ID=arch"],
      ¬ (Contains x "ID=ubuntu" ∨ Contains x "ID=debian") := by
    intro x hx
    simp only [List.cons_append, List.nil_append, List.mem_cons, List.mem_singleton,
      List.not_mem_nil, or_false] at hx
    rcases hx with hx | hx <;> subst hx <;>
      exact fun hc => hc.elim
        (fun hc1 => absurd ((find_ne_none_iff _ _).mpr hc1) (by decide))
        (fun hc2 => absurd ((find_ne_none_iff _ _).mpr hc2) (by decide))
  exact ⟨⟨c1, p1, (detect_distro_family _ _ ["NAME=Ubuntu"] ["ID_LIKE=debian"] "ID=ubuntu"
      rfl).1 c1 p1⟩,
    ⟨c2, p2, (detect_distro_family _ _ ["NAME=Arch Linux"] ["BUILD_ID=rolling"] "ID=arch"
      rfl).2 c2 p2⟩⟩

/-! ## Rule manager, empty address -/

/-- C4: given the empty address string, `block_ip` returns failure and issues no
external command (the host state and the trace are unchanged), in every state of
the environment. -/
theorem block_ip_empty_address {σ : Type} (h : Host σ) (r : Run σ) :
    block_ip h "" r = (false, r) := by
  simp [block_ip]

/-! ## Dependency installer, Unknown family -/

/-- C5 as stated fails: for the Unknown family `check_and_install_iptables` does
not return failure. -/
theorem unknown_family_installer_succeeds :
    ¬ ((check_and_install_iptables (oracle_host none (fun _ => 0)) "unknown" ⟨(), []⟩).1 = false ∧
       (check_and_install_iptables (oracle_host none (fun _ => 0)) "unknown" ⟨(), []⟩).2.trace
         = []) := by
  decide

/-! ## Orchestrator, argument check -/

/-- C9 as stated fails: with two positional arguments `main` does not exit with
code 1; it reads the identification file, blocks the first address and exits 0. -/
theorem main_two_positional_arguments_accepted :
    ["block_ip", "10.0.0.5", "10.0.0.6"].length - 1 = 2 ∧
    (main (oracle_host (some ["ID=debian"]) (fun _ => 0))
      ["block_ip", "10.0.0.5", "10.0.0.6"] ()).1 = 0 ∧
    (main (oracle_host (some ["ID=debian"]) (fun _ => 0))
      ["block_ip", "10.0.0.5", "10.0.0.6"] ()).2.trace =
      [Event.open_file "/etc/os-release",
       Event.system "dpkg -s iptables-persistent &>/dev/null",
       Event.system "sudo iptables-save | grep -q -- \"-A INPUT -s 10.0.0.5 -j DROP\"",
       Event.system "sudo netfilter-persistent save"] := by
  decide

/-- C9 (amended): the orchestrator requires at least one positional argument: for
every argument vector with no positional argument (`argc < 2`), `main` exits with
code 1 without reading the identification file and without issuing any external
command. -/
theorem main_missing_argument {σ : Type} (h : Host σ) (argv : List String) (s : σ)
    (hargc : argv.length < 2) :
    main h argv s = (1, ⟨s, []⟩) := by
  simp [main, hargc]

/-- Witness for `main_missing_argument`: the argument vector holds the program
name only. -/
theorem main_missing_argument_witness :
    ["block_ip"].length < 2 ∧
    main (oracle_host (some ["ID=debian"]) (fun _ => 0)) ["block_ip"] () = (1, ⟨(), []⟩) :=
  ⟨by decide, main_missing_argument _ ["block_ip"] () (by decide)⟩

/-! ## Lemmas on command strings -/

theorem length_eq_zero_iff (s : String) : s.length = 0 ↔ s = "" := by
  constructor
  · intro h
    apply String.ext
    have h2 : s.data.length = 0 := h
    rw [List.length_eq_zero] at h2
    rw [h2]
  · intro h
    subst h
    rfl

theorem check_cmd_ne_add_rule_cmd (ip : String) : check_cmd ip ≠ add_rule_cmd ip := by
  intro h
  have h2 := congrArg String.data h
  simp [check_cmd, add_rule_cmd] at h2

/-! ## Rule manager against an oracle -/

/-- C6: for every non-empty address and every oracle of exit statuses, `block_ip`
returns failure exactly when the rule-check command and the rule-addition command
both exit non-zero; the commands issued are the check alone when it exits 0 and the
check followed by the addition otherwise, so the addition command is issued exactly
when the check exits non-zero and at most once; and the addition command is the
string `sudo iptables -A INPUT -s ` followed by the address verbatim and ` -j DROP`. -/
theorem block_ip_oracle (os_release : Option (List String)) (o : String → Int) (ip : String)
    (hip : ip ≠ "") :
    ((block_ip (oracle_host os_release o) ip ⟨(), []⟩).1 = false ↔
      o (check_cmd ip) ≠ 0 ∧ o ("sudo iptables -A INPUT -s " ++ ip ++ " -j DROP") ≠ 0) ∧
    (block_ip (oracle_host os_release o) ip ⟨(), []⟩).2.trace =
      (if o (check_cmd ip) ≠ 0 then
        [Event.system (check_cmd ip),
         Event.system ("sudo iptables -A INPUT -s " ++ ip ++ " -j DROP")]
      else [Event.system (check_cmd ip)]) ∧
    (block_ip (oracle_host os_release o) ip ⟨(), []⟩).2.trace.count
        (Event.system ("sudo iptables -A INPUT -s " ++ ip ++ " -j DROP")) =
      (if o (check_cmd ip) ≠ 0 then 1 else 0) := by
  have hlen : ¬ ip.length = 0 := fun hc => hip ((length_eq_zero_iff ip).mp hc)
  have hne : check_cmd ip ≠ "sudo iptables -A INPUT -s " ++ ip ++ " -j DROP" :=
    check_cmd_ne_add_rule_cmd ip
  have hne2 : ¬ ("sudo iptables -A INPUT -s " ++ ip ++ " -j DROP" = check_cmd ip) :=
    fun hc => hne hc.symm
  simp only [block_ip, if_neg hlen, run_system, oracle_host, add_rule_cmd]
  by_cases hc : o (check_cmd ip) = 0
  · simp [hc, hne, hne2]
  · by_cases ha : o ("sudo iptables -A INPUT -s " ++ ip ++ " -j DROP") = 0
    · simp [hc, ha, hne, hne2]
    · simp [hc, ha, hne, hne2]

/-- Witness for `block_ip_oracle`: address `10.0.0.5`, every command exits 1. -/
theorem block_ip_oracle_witness :
    "10.0.0.5" ≠ "" ∧
    (block_ip (oracle_host none (fun _ => 1)) "10.0.0.5" ⟨(), []⟩).1 = false ∧
    (block_ip (oracle_host none (fun _ => 1)) "10.0.0.5" ⟨(), []⟩).2.trace.count
        (Event.system ("sudo iptables -A INPUT -s " ++ "10.0.0.5" ++ " -j DROP")) = 1 :=
  ⟨by decide,
    (block_ip_oracle none (fun _ => 1) "10.0.0.5" (by decide)).1.mpr ⟨by decide, by decide⟩,
    (block_ip_oracle none (fun _ => 1) "10.0.0.5" (by decide)).2.2⟩

/-! ## Persistence manager against an oracle -/

/-- C8: for every oracle of exit statuses, `save_iptables_rules` returns failure
exactly when some command it issues exits non-zero; for the Debian family it issues
exactly the one command `sudo netfilter-persistent save`; for the Arch family it
issues the export to `/etc/iptables/iptables.rules` first and the service
enable/start command second, the second only when the first exits 0. -/
theorem save_iptables_rules_oracle (os_release : Option (List String)) (o : String → Int) :
    (∀ distro : String,
      (save_iptables_rules (oracle_host os_release o) distro ⟨(), []⟩).1 = false ↔
        ∃ c, Event.system c ∈
            (save_iptables_rules (oracle_host os_release o) distro ⟨(), []⟩).2.trace ∧
          o c ≠ 0) ∧
    (save_iptables_rules (oracle_host os_release o) "debian" ⟨(), []⟩).2.trace =
      [Event.system "sudo netfilter-persistent save"] ∧
    (save_iptables_rules (oracle_host os_release o) "arch" ⟨(), []⟩).2.trace =
      (if o "sudo iptables-save > /etc/iptables/iptables.rules" ≠ 0 then
        [Event.system "sudo iptables-save > /etc/iptables/iptables.rules"]
      else
        [Event.system "sudo iptables-save > /etc/iptables/iptables.rules",
         Event.system
          "sudo systemctl enable iptables.service && sudo systemctl start iptables.service"]) := by
  refine ⟨?_, ?_, ?_⟩
  · intro distro
    simp only [save_iptables_rules, run_system, oracle_host]
    by_cases hd : distro = "debian"
    · by_cases h1 : o netfilter_save_cmd = 0 <;> simp [hd, h1]
    · by_cases ha : distro = "arch"
      · by_cases h1 : o iptables_export_cmd = 0
        · by_cases h2 : o iptables_service_cmd = 0 <;> simp [hd, ha, h1, h2]
        · simp [hd, ha, h1]
      · simp [hd, ha]
  · simp only [save_iptables_rules, run_system, oracle_host, netfilter_save_cmd]
    split_ifs <;> simp
  · simp only [save_iptables_rules, run_system, oracle_host, iptables_export_cmd,
      iptables_service_cmd]
    split_ifs <;> simp_all

/-! ## Trace framing: a step appends its own commands to the trace -/

theorem detect_distro_snd {σ : Type} (h : Host σ) (r : Run σ) :
    (detect_distro h r).2 = ⟨r.env, r.trace ++ [Event.open_file "/etc/os-release"]⟩ := by
  unfold detect_distro
  cases h.os_release <;> rfl

theorem detect_distro_fst {σ : Type} (h : Host σ) (r r2 : Run σ) :
    (detect_distro h r).1 = (detect_distro h r2).1 := by
  unfold detect_distro
  cases h.os_release <;> rfl

theorem check_and_install_iptables_frame {σ : Type} (h : Host σ) (distro : String)
    (e : σ) (t : List Event) :
    check_and_install_iptables h distro ⟨e, t⟩ =
      ((check_and_install_iptables h distro ⟨e, []⟩).1,
       ⟨(check_and_install_iptables h distro ⟨e, []⟩).2.env,
        t ++ (check_and_install_iptables h distro ⟨e, []⟩).2.trace⟩) := by
  simp only [check_and_install_iptables, is_debian_package_installed,
    is_arch_package_installed, run_system]
  split_ifs <;> simp

theorem block_ip_frame {σ : Type} (h : Host σ) (ip : String) (e : σ) (t : List Event) :
    block_ip h ip ⟨e, t⟩ =
      ((block_ip h ip ⟨e, []⟩).1,
       ⟨(block_ip h ip ⟨e, []⟩).2.env, t ++ (block_ip h ip ⟨e, []⟩).2.trace⟩) := by
  simp only [block_ip, run_system]
  split_ifs <;> simp

theorem save_iptables_rules_frame {σ : Type} (h : Host σ) (distro : String)
    (e : σ) (t : List Event) :
    save_iptables_rules h distro ⟨e, t⟩ =
      ((save_iptables_rules h distro ⟨e, []⟩).1,
       ⟨(save_iptables_rules h distro ⟨e, []⟩).2.env,
        t ++ (save_iptables_rules h distro ⟨e, []⟩).2.trace⟩) := by
  simp only [save_iptables_rules, run_system]
  split_ifs <;> simp

/-- With at least one positional argument, `main` is the short-circuiting sequence
of its four steps, each step running in the host state the previous one left. -/
theorem main_steps {σ : Type} (h : Host σ) (prog ip : String) (rest : List String) (s : σ) :
    main h (prog :: ip :: rest) s =
      (let d := (detect_distro h ⟨s, []⟩).1
       let ci := check_and_install_iptables h d ⟨s, []⟩
       let bi := block_ip h ip ⟨ci.2.env, []⟩
       let sv := save_iptables_rules h d ⟨bi.2.env, []⟩
       if d = "unknown" then (1, ⟨s, [Event.open_file "/etc/os-release"]⟩)
       else if ci.1 = false then
         (1, ⟨ci.2.env, Event.open_file "/etc/os-release" :: ci.2.trace⟩)
       else if bi.1 = false then
         (1, ⟨bi.2.env, Event.open_file "/etc/os-release" :: (ci.2.trace ++ bi.2.trace)⟩)
       else
         (if sv.1 = false then 1 else 0,
          ⟨sv.2.env,
           Event.open_file "/etc/os-release" :: (ci.2.trace ++ (bi.2.trace ++ sv.2.trace))⟩)) := by
  simp only [main, List.length_cons, List.getD_cons_succ, List.getD_cons_zero,
    detect_distro_snd, List.nil_append]
  have hlen : ¬ (rest.length + 1 + 1 < 2) := by omega
  rw [if_neg hlen]
  by_cases hd : (detect_distro h ⟨s, []⟩).1 = "unknown"
  · simp [hd]
  · simp only [if_neg hd]
    rw [check_and_install_iptables_frame]
    by_cases hci : (check_and_install_iptables h (detect_distro h ⟨s, []⟩).1 ⟨s, []⟩).1 = false
    · simp [hci]
    · simp only [hci, Bool.not_eq_false] at hci ⊢
      simp only [hci, Bool.not_true, Bool.false_eq_true, if_false]
      rw [block_ip_frame]
      by_cases hbi : (block_ip h ip
          ⟨(check_and_install_iptables h (detect_distro h ⟨s, []⟩).1 ⟨s, []⟩).2.env, []⟩).1 = false
      · simp [hbi]
      · simp only [Bool.not_eq_false] at hbi
        simp only [hbi, Bool.not_true, Bool.false_eq_true, if_false]
        rw [save_iptables_rules_frame]
        by_cases hsv : (save_iptables_rules h (detect_distro h ⟨s, []⟩).1
            ⟨(block_ip h ip
              ⟨(check_and_install_iptables h (detect_distro h ⟨s, []⟩).1 ⟨s, []⟩).2.env,
                []⟩).2.env, []⟩).1 = false
        · simp [hsv]
        · simp only [Bool.not_eq_false] at hsv
          simp [hsv]

/-! ## Orchestrator against an oracle -/

/-- C2: with the external commands an oracle from command string to exit status,
for every os-release content, address argument and oracle: the trace of `main` is
the read of the identification file, then the commands of
`check_and_install_iptables`, then those of `block_ip`, then those of
`save_iptables_rules`, in that order and cut after the first step that fails (for
an Unknown distribution nothing follows the read, so no external command is
issued); the exit code is 0 exactly when the distribution is known and the three
later steps all return success, and it is 1 otherwise. -/
theorem main_sequence (os_release : Option (List String)) (o : String → Int)
    (prog ip : String) (rest : List String) :
    (main (oracle_host os_release o) (prog :: ip :: rest) ()).2.trace =
      Event.open_file "/etc/os-release" ::
        (if (detect_distro (oracle_host os_release o) ⟨(), []⟩).1 = "unknown" then []
         else
          (check_and_install_iptables (oracle_host os_release o)
          (detect_distro (oracle_host os_release o) ⟨(), []⟩).1 ⟨(), []⟩).2.trace ++
          (if (check_and_install_iptables (oracle_host os_release o)
          (detect_distro (oracle_host os_release o) ⟨(), []⟩).1 ⟨(), []⟩).1 = true then
            (block_ip (oracle_host os_release o) ip ⟨(), []⟩).2.trace ++
            (if (block_ip (oracle_host os_release o) ip ⟨(), []⟩).1 = true then
              (save_iptables_rules (oracle_host os_release o)
          (detect_distro (oracle_host os_release o) ⟨(), []⟩).1 ⟨(), []⟩).2.trace
             else [])
           else [])) ∧
    ((main (oracle_host os_release o) (prog :: ip :: rest) ()).1 = 0 ↔
      (detect_distro (oracle_host os_release o) ⟨(), []⟩).1 ≠ "unknown" ∧
      (check_and_install_iptables (oracle_host os_release o)
          (detect_distro (oracle_host os_release o) ⟨(), []⟩).1 ⟨(), []⟩).1 = true ∧
      (block_ip (oracle_host os_release o) ip ⟨(), []⟩).1 = true ∧
      (save_iptables_rules (oracle_host os_release o)
          (detect_distro (oracle_host os_release o) ⟨(), []⟩).1 ⟨(), []⟩).1 = true) ∧
    ((main (oracle_host os_release o) (prog :: ip :: rest) ()).1 = 0 ∨
      (main (oracle_host os_release o) (prog :: ip :: rest) ()).1 = 1) := by
  simp only [main_steps]
  split_ifs <;> simp_all

/-! ## Unknown family: installer and orchestrator -/

/-- C5 (amended): given the Unknown distribution family,
`check_and_install_iptables` issues no external command (host state and trace are
unchanged) and returns success; the Unknown family is rejected by the orchestrator
before the installer is called: whenever `detect_distro` returns "unknown", `main`
exits with code 1 for every argument vector, leaves the host state unchanged and
issues no external command at all. -/
theorem check_and_install_iptables_unknown {σ : Type} (h : Host σ) (r : Run σ)
    (argv : List String) (s : σ) :
    check_and_install_iptables h "unknown" r = (true, r) ∧
    ((detect_distro h ⟨s, []⟩).1 = "unknown" →
      (main h argv s).1 = 1 ∧
      (main h argv s).2.env = s ∧
      ∀ cmd, Event.system cmd ∉ (main h argv s).2.trace) := by
  refine ⟨by simp [check_and_install_iptables], fun hunk => ?_⟩
  by_cases hargc : argv.length < 2
  · simp [main, hargc]
  · obtain ⟨prog, ip, rest, rfl⟩ : ∃ prog ip rest, argv = prog :: ip :: rest := by
      match argv, hargc with
      | [], hc => exact absurd (by simp) hc
      | [_], hc => exact absurd (by simp) hc
      | prog :: ip :: rest, _ => exact ⟨prog, ip, rest, rfl⟩
    rw [main_steps]
    simp [hunk]

/-- Witness for `check_and_install_iptables_unknown`: a Fedora identification
file, one address argument, every command exiting 0. -/
theorem check_and_install_iptables_unknown_witness :
    (detect_distro (oracle_host (some ["NAME=Fedora", "ID=fedora"]) (fun _ => 0))
      ⟨(), []⟩).1 = "unknown" ∧
    (main (oracle_host (some ["NAME=Fedora", "ID=fedora"]) (fun _ => 0))
      ["block_ip", "10.0.0.5"] ()).1 = 1 ∧
    (main (oracle_host (some ["NAME=Fedora", "ID=fedora"]) (fun _ => 0))
      ["block_ip", "10.0.0.5"] ()).2.trace = [Event.open_file "/etc/os-release"] ∧
    ∀ cmd, Event.system cmd ∉
      (main (oracle_host (some ["NAME=Fedora", "ID=fedora"]) (fun _ => 0))
        ["block_ip", "10.0.0.5"] ()).2.trace :=
  ⟨by decide,
    ((check_and_install_iptables_unknown
      (oracle_host (some ["NAME=Fedora", "ID=fedora"]) (fun _ => 0)) ⟨(), []⟩
      ["block_ip", "10.0.0.5"] ()).2 (by decide)).1,
    by decide,
    ((check_and_install_iptables_unknown
      (oracle_host (some ["NAME=Fedora", "ID=fedora"]) (fun _ => 0)) ⟨(), []⟩
      ["block_ip", "10.0.0.5"] ()).2 (by decide)).2.2⟩

/-! ## Rule manager idempotence -/

theorem iptables_model_add (ip : String) (rules : List String) :
    ((iptables_model ip).system (add_rule_cmd ip) rules).2 = rules ++ [rule_text ip] := by
  simp [iptables_model]

theorem iptables_model_check (ip : String) (rules : List String) :
    (((iptables_model ip).system (check_cmd ip) rules).1 = 0 ↔ rule_text ip ∈ rules) ∧
    ((iptables_model ip).system (check_cmd ip) rules).2 = rules := by
  simp only [iptables_model, if_neg (check_cmd_ne_add_rule_cmd ip), if_true]
  split_ifs with hmem <;> simp [hmem]

/-- C3 as stated fails: in the rule-set model, starting from a rule set that
already holds the drop rule for `10.0.0.5` twice, two calls of `block_ip` leave two
such rules, not exactly one. -/
theorem duplicate_rules_survive_block_ip :
    (block_ip (iptables_model "10.0.0.5") "10.0.0.5"
      ⟨(block_ip (iptables_model "10.0.0.5") "10.0.0.5"
          ⟨[rule_text "10.0.0.5", rule_text "10.0.0.5"], []⟩).2.env, []⟩).2.env.count
      (rule_text "10.0.0.5") = 2 := by
  decide

/-- C3 (amended): for every non-empty address, over a model of the firewall rule
set in which the add command appends the canonical rule for the address and the
check command succeeds exactly when that rule is present (and changes nothing):
calling `block_ip` twice in succession with the same address leaves exactly one
drop rule for that address whenever the rule set held at most one to begin with,
and the second call issues no add command. -/
theorem block_ip_twice (ip : String) (hip : ip ≠ "") (h : Host (List String))
    (hadd : ∀ rules, (h.system (add_rule_cmd ip) rules).2 = rules ++ [rule_text ip])
    (hcheck : ∀ rules, ((h.system (check_cmd ip) rules).1 = 0 ↔ rule_text ip ∈ rules) ∧
      (h.system (check_cmd ip) rules).2 = rules)
    (rules : List String) :
    (rules.count (rule_text ip) ≤ 1 →
      (block_ip h ip ⟨(block_ip h ip ⟨rules, []⟩).2.env, []⟩).2.env.count (rule_text ip) = 1) ∧
    Event.system (add_rule_cmd ip) ∉
      (block_ip h ip ⟨(block_ip h ip ⟨rules, []⟩).2.env, []⟩).2.trace := by
  have hlen : ¬ ip.length = 0 := fun hc => hip ((length_eq_zero_iff ip).mp hc)
  have hne : ¬ (add_rule_cmd ip = check_cmd ip) := fun hc => check_cmd_ne_add_rule_cmd ip hc.symm
  by_cases hmem : rule_text ip ∈ rules
  · have hc0 : (h.system (check_cmd ip) rules).1 = 0 := (hcheck rules).1.mpr hmem
    have hpos : 0 < rules.count (rule_text ip) := List.count_pos_iff.mpr hmem
    have hfirst : (block_ip h ip ⟨rules, []⟩).2.env = rules := by
      simp [block_ip, run_system, hlen, hc0, (hcheck rules).2]
    rw [hfirst]
    refine ⟨fun hone => ?_, ?_⟩
    · have hcount : rules.count (rule_text ip) = 1 := by omega
      simp [block_ip, run_system, hlen, hc0, (hcheck rules).2, hcount]
    · simp [block_ip, run_system, hlen, hc0, hne]
  · have hc1 : ¬ (h.system (check_cmd ip) rules).1 = 0 := fun hc => hmem ((hcheck rules).1.mp hc)
    have hcount : rules.count (rule_text ip) = 0 := List.count_eq_zero.mpr hmem
    have hmem2 : rule_text ip ∈ rules ++ [rule_text ip] := by simp
    have hc2 : (h.system (check_cmd ip) (rules ++ [rule_text ip])).1 = 0 :=
      (hcheck _).1.mpr hmem2
    have hfirst : (block_ip h ip ⟨rules, []⟩).2.env = rules ++ [rule_text ip] := by
      simp only [block_ip, run_system, if_neg hlen, if_neg hc1, (hcheck rules).2, hadd]
      split_ifs <;> rfl
    rw [hfirst]
    simp [block_ip, run_system, hlen, hc2, (hcheck _).2, hcount, hne]

/-- Witness for `block_ip_twice`: address `10.0.0.5`, the rule-set model, an
initially empty rule set. -/
theorem block_ip_twice_witness :
    "10.0.0.5" ≠ "" ∧
    ([] : List String).count (rule_text "10.0.0.5") ≤ 1 ∧
    (block_ip (iptables_model "10.0.0.5") "10.0.0.5"
      ⟨(block_ip (iptables_model "10.0.0.5") "10.0.0.5" ⟨[], []⟩).2.env, []⟩).2.env.count
        (rule_text "10.0.0.5") = 1 ∧
    Event.system (add_rule_cmd "10.0.0.5") ∉
      (block_ip (iptables_model "10.0.0.5") "10.0.0.5"
        ⟨(block_ip (iptables_model "10.0.0.5") "10.0.0.5" ⟨[], []⟩).2.env, []⟩).2.trace :=
  ⟨by decide, by decide,
    (block_ip_twice "10.0.0.5" (by decide) (iptables_model "10.0.0.5")
      (iptables_model_add "10.0.0.5") (iptables_model_check "10.0.0.5") []).1 (by decide),
    (block_ip_twice "10.0.0.5" (by decide) (iptables_model "10.0.0.5")
      (iptables_model_add "10.0.0.5") (iptables_model_check "10.0.0.5") []).2⟩

/-! ## Dependency installer idempotence -/

theorem query_cmd_ne_install_cmd (distro : String) : query_cmd distro ≠ install_cmd distro := by
  unfold query_cmd install_cmd
  split_ifs <;> decide

theorem pkgdb_model_install_then_query (query install : String) (hne : query ≠ install)
    (db : PkgDb) (hok : ((pkgdb_model query install).system install db).1 = 0) :
    ((pkgdb_model query install).system query
      ((pkgdb_model query install).system install db).2).1 = 0 := by
  cases honline : db.online <;> simp_all [pkgdb_model]

/-- C7 as stated fails: in the package-database model for the Debian family, with
the package absent and the mirror unreachable, the install command fails in the
first invocation and is issued again by the second: twice in total. -/
theorem check_and_install_iptables_retries_failed_install :
    (check_and_install_iptables (pkgdb_model (query_cmd "debian") (install_cmd "debian")) "debian"
      (check_and_install_iptables (pkgdb_model (query_cmd "debian") (install_cmd "debian"))
        "debian" ⟨⟨false, false⟩, []⟩).2).2.trace.count
      (Event.system (install_cmd "debian")) = 2 := by
  decide

/-- C7 (amended): for the Debian and Arch families, over a model of the package
database in which a successful install makes the later query report the package
present, invoking `check_and_install_iptables` twice in succession issues the
install command at most once in total provided the first invocation returns
success; and whenever the query reports the package present, the call issues no
install command and returns success. -/
theorem check_and_install_iptables_twice {σ : Type} (distro : String)
    (hd : distro = "debian" ∨ distro = "arch") (h : Host σ)
    (hmodel : ∀ s, (h.system (install_cmd distro) s).1 = 0 →
      (h.system (query_cmd distro) (h.system (install_cmd distro) s).2).1 = 0)
    (s : σ) :
    ((check_and_install_iptables h distro ⟨s, []⟩).1 = true →
      (check_and_install_iptables h distro
        (check_and_install_iptables h distro ⟨s, []⟩).2).2.trace.count
          (Event.system (install_cmd distro)) ≤ 1) ∧
    ((h.system (query_cmd distro) s).1 = 0 →
      (check_and_install_iptables h distro ⟨s, []⟩).1 = true ∧
      Event.system (install_cmd distro) ∉ (check_and_install_iptables h distro ⟨s, []⟩).2.trace) := by
  have hne := query_cmd_ne_install_cmd distro
  have hne2 : ¬ (install_cmd distro = query_cmd distro) := fun hc => hne hc.symm
  rcases hd with hd | hd
  · subst hd
    have hq : query_cmd "debian" = dpkg_query_cmd "iptables-persistent" := by decide
    have hi : install_cmd "debian" = apt_install_cmd := by decide
    rw [hq, hi] at hmodel hne hne2 ⊢
    simp only [check_and_install_iptables, is_debian_package_installed, run_system, if_true]
    by_cases h1 : (h.system (dpkg_query_cmd "iptables-persistent") s).1 = 0
    · by_cases h2 : (h.system (dpkg_query_cmd "iptables-persistent")
          (h.system (dpkg_query_cmd "iptables-persistent") s).2).1 = 0
      · simp [h1, h2, hne, hne2]
      · simp only [h1, h2, decide_True, decide_False, Bool.not_true, Bool.not_false,
          Bool.false_eq_true, if_false, if_true]
        split_ifs <;> simp [hne, hne2]
    · by_cases h3 : (h.system apt_install_cmd
          (h.system (dpkg_query_cmd "iptables-persistent") s).2).1 = 0
      · have h4 := hmodel _ h3
        simp [h1, h3, h4, hne, hne2]
      · simp [h1, h3]
  · subst hd
    have hq : query_cmd "arch" = pacman_query_cmd "iptables" := by decide
    have hi : install_cmd "arch" = pacman_install_cmd := by decide
    have hnd : ¬ ("arch" = "debian") := by decide
    rw [hq, hi] at hmodel hne hne2 ⊢
    simp only [check_and_install_iptables, is_arch_package_installed, run_system, if_neg hnd,
      if_true]
    by_cases h1 : (h.system (pacman_query_cmd "iptables") s).1 = 0
    · by_cases h2 : (h.system (pacman_query_cmd "iptables")
          (h.system (pacman_query_cmd "iptables") s).2).1 = 0
      · simp [h1, h2, hne, hne2]
      · simp only [h1, h2, decide_True, decide_False, Bool.not_true, Bool.not_false,
          Bool.false_eq_true, if_false, if_true]
        split_ifs <;> simp [hne, hne2]
    · by_cases h3 : (h.system pacman_install_cmd
          (h.system (pacman_query_cmd "iptables") s).2).1 = 0
      · have h4 := hmodel _ h3
        simp [h1, h3, h4, hne, hne2]
      · simp [h1, h3]

/-- Witness for `check_and_install_iptables_twice`: the Debian family on the
package-database model, once with the package absent and the mirror reachable,
once with the package present. -/
theorem check_and_install_iptables_twice_witness :
    ("debian" = "debian" ∨ "debian" = "arch") ∧
    ((check_and_install_iptables (pkgdb_model (query_cmd "debian") (install_cmd "debian"))
      "debian" ⟨⟨false, true⟩, []⟩).1 = true ∧
     (check_and_install_iptables (pkgdb_model (query_cmd "debian") (install_cmd "debian")) "debian"
      (check_and_install_iptables (pkgdb_model (query_cmd "debian") (install_cmd "debian"))
        "debian" ⟨⟨false, true⟩, []⟩).2).2.trace.count
      (Event.system (install_cmd "debian")) ≤ 1) ∧
    (((pkgdb_model (query_cmd "debian") (install_cmd "debian")).system (query_cmd "debian")
        ⟨true, false⟩).1 = 0 ∧
     (check_and_install_iptables (pkgdb_model (query_cmd "debian") (install_cmd "debian"))
      "debian" ⟨⟨true, false⟩, []⟩).1 = true ∧
     Event.system (install_cmd "debian") ∉
      (check_and_install_iptables (pkgdb_model (query_cmd "debian") (install_cmd "debian"))
        "debian" ⟨⟨true, false⟩, []⟩).2.trace) :=
  ⟨Or.inl rfl,
    ⟨by decide,
      (check_and_install_iptables_twice "debian" (Or.inl rfl)
        (pkgdb_model (query_cmd "debian") (install_cmd "debian"))
        (pkgdb_model_install_then_query _ _ (query_cmd_ne_install_cmd "debian"))
        ⟨false, true⟩).1 (by decide)⟩,
    ⟨by decide,
      (check_and_install_iptables_twice "debian" (Or.inl rfl)
        (pkgdb_model (query_cmd "debian") (install_cmd "debian"))
        (pkgdb_model_install_then_query _ _ (query_cmd_ne_install_cmd "debian"))
        ⟨true, false⟩).2 (by decide)⟩⟩

end BlockIp
